import Mathlib

/-!
Verification of the Heizungsbelüfter (ESP32-C6 Zigbee fan switch) control
logic: the relay actuator module (`relay.c`), and the Zigbee signal /
attribute handlers (`zigbee_handler.c`), shallowly embedded as pure Lean
functions over explicit state.
-/

namespace Heizung

/-! ## ESP-IDF error codes (`esp_err_t` is a C `int`) -/

def ESP_OK : Int := 0
def ESP_FAIL : Int := -1
def ESP_ERR_INVALID_ARG : Int := 0x102

/-! ## Relay module (`relay.h` / `relay.c`)

Configuration constants from `relay.h`. `RELAY_ACTIVE_LEVEL = 1` means
active-high: GPIO HIGH = relay ON. -/

def RELAY_GPIO_PIN : Nat := 8
def RELAY_ACTIVE_LEVEL : Nat := 1

/-- The observable state of the relay module: the module-private
`s_relay_state` flag together with the level last written to the GPIO
output register (`gpio_set_level`). -/
structure RelayState where
  s_relay_state : Bool
  gpio_level : Nat
  deriving Repr, DecidableEq

/-- `relay_init` from `relay.c`. The result of the `gpio_config` call is an
environment input (an `esp_err_t`); on failure the function returns that
error without touching the state, on success it forces the stored state to
`false` and drives the GPIO to the OFF level
(`RELAY_ACTIVE_LEVEL ? 0 : 1`). -/
def relay_init (gpio_config_ret : Int) (s : RelayState) : Int × RelayState :=
  if gpio_config_ret ≠ ESP_OK then
    (gpio_config_ret, s)
  else
    (ESP_OK,
      { s_relay_state := false
        gpio_level := if RELAY_ACTIVE_LEVEL ≠ 0 then 0 else 1 })

/-- `relay_set` from `relay.c`: computes the GPIO level from the configured
polarity, writes it, and updates the stored state. -/
def relay_set (b : Bool) (_s : RelayState) : RelayState :=
  let level : Nat :=
    if RELAY_ACTIVE_LEVEL ≠ 0 then
      (if b then 1 else 0)
    else
      (if b then 0 else 1)
  { s_relay_state := b, gpio_level := level }

/-- `relay_toggle` from `relay.c`: `relay_set(!s_relay_state)`. -/
def relay_toggle (s : RelayState) : RelayState :=
  relay_set (!s.s_relay_state) s

/-- `relay_get_state` from `relay.c`. -/
def relay_get_state (s : RelayState) : Bool :=
  s.s_relay_state

/-! A sequence of client calls into the relay module, for statements over
call traces. -/

/-- One mutating call into the relay module: `relay_set(on)` or
`relay_toggle()`. -/
inductive RelayOp where
  | set (b : Bool)
  | toggle
  deriving Repr, DecidableEq

/-- Execute one `RelayOp` on the relay state. -/
def RelayOp.apply : RelayOp → RelayState → RelayState
  | .set b, s => relay_set b s
  | .toggle, s => relay_toggle s

/-- Execute a sequence of relay calls, in order. -/
def runRelayOps (ops : List RelayOp) (s : RelayState) : RelayState :=
  ops.foldl (fun st op => op.apply st) s

theorem runRelayOps_append (xs ys : List RelayOp) (s : RelayState) :
    runRelayOps (xs ++ ys) s = runRelayOps ys (runRelayOps xs s) := by
  simp [runRelayOps, List.foldl_append]

/-! ## Zigbee handler module (`zigbee_handler.h` / `zigbee_handler.c`) -/

/-! Configuration and ZCL constants, from `zigbee_handler.h` and the
esp-zigbee-lib headers (`esp_zb_zcl_*`). -/

def ZIGBEE_ENDPOINT : Nat := 10
def ESP_ZB_ZCL_CLUSTER_ID_ON_OFF : Nat := 0x0006
def ESP_ZB_ZCL_ATTR_ON_OFF_ON_OFF_ID : Nat := 0x0000
def ESP_ZB_ZCL_ATTR_TYPE_BOOL : Nat := 0x10
def ESP_ZB_ZCL_STATUS_SUCCESS : Nat := 0x00

/-- The fields of an `esp_zb_zcl_set_attr_value_message_t` read by
`zb_attribute_handler`: `info.status`, `info.dst_endpoint`, `info.cluster`,
`attribute.id`, `attribute.data.type`, `attribute.data.size`, and
`attribute.data.value`. The `value` pointer is modelled as
`Option Bool`: `none` is a NULL pointer, `some v` a pointer whose
dereference as a `bool` reads `v`. -/
structure AttrMessage where
  status : Nat
  dst_endpoint : Nat
  cluster : Nat
  attr_id : Nat
  data_type : Nat
  data_size : Nat
  data_value : Option Bool
  deriving Repr, DecidableEq

/-- `zb_attribute_handler` from `zigbee_handler.c`, as a pure function.
`cb_registered` models the single-slot callback pointer
`s_on_off_callback` being non-NULL. The result pairs the returned
`esp_err_t` with the list of boolean arguments the handler passed to the
registered callback (in call order; empty when the callback was never
invoked). `message = none` models a NULL message pointer. -/
def zb_attribute_handler (cb_registered : Bool)
    (message : Option AttrMessage) : Int × List Bool :=
  match message with
  | none => (ESP_FAIL, [])
  | some m =>
    if m.status ≠ ESP_ZB_ZCL_STATUS_SUCCESS then
      (ESP_ERR_INVALID_ARG, [])
    else if m.dst_endpoint = ZIGBEE_ENDPOINT then
      if m.cluster = ESP_ZB_ZCL_CLUSTER_ID_ON_OFF then
        if m.attr_id = ESP_ZB_ZCL_ATTR_ON_OFF_ON_OFF_ID ∧
            m.data_type = ESP_ZB_ZCL_ATTR_TYPE_BOOL then
          let on_off_value : Bool := m.data_value.getD false
          (ESP_OK, if cb_registered then [on_off_value] else [])
        else (ESP_OK, [])
      else (ESP_OK, [])
    else (ESP_OK, [])

/-! ### ZDO signal handler -/

/-- The `esp_zb_app_signal_type_t` values distinguished by
`zb_zdo_signal_handler`; every other signal value falls into the
`default` branch and is represented by `other code`. -/
inductive SigType where
  | skip_startup
  | device_first_start
  | device_reboot
  | steering
  | other (code : Nat)
  deriving Repr, DecidableEq

/-- One delivered ZDO signal: the signal type together with its
`esp_err_status`, plus the value `esp_zb_bdb_is_factory_new()` would
return if the handler queried it while processing this signal. -/
structure ZdoSignal where
  sig_type : SigType
  err_status : Int
  factory_new : Bool
  deriving Repr, DecidableEq

/-- The externally visible effects of one `zb_zdo_signal_handler` call. -/
inductive HandlerEffect where
  /-- An immediate
  `esp_zb_bdb_start_top_level_commissioning(NETWORK_STEERING)` call. -/
  | begin_steering
  /-- An `esp_zb_scheduler_alarm` arming one deferred
  `esp_zb_bdb_start_top_level_commissioning(NETWORK_STEERING)` call
  after `delay_ms` milliseconds. -/
  | schedule_steering_retry (delay_ms : Nat)
  /-- The joined-network handling branch (logging network identity for
  steering success, or the already-commissioned rejoin branch for a
  non-factory-new startup). -/
  | joined_network
  /-- A log-only branch with no state effect. -/
  | log_only
  deriving Repr, DecidableEq

/-- `zb_zdo_signal_handler` from `zigbee_handler.c`, as the list of
effects one call produces (in order). -/
def zb_zdo_signal_handler (sig : ZdoSignal) : List HandlerEffect :=
  match sig.sig_type with
  | .skip_startup => [.begin_steering]
  | .device_first_start | .device_reboot =>
    if sig.err_status = ESP_OK then
      if sig.factory_new then [.begin_steering]
      else [.joined_network]
    else
      [.schedule_steering_retry 1000]
  | .steering =>
    if sig.err_status = ESP_OK then [.joined_network]
    else [.schedule_steering_retry 2000]
  | .other _ => [.log_only]

/-- The effects of delivering a sequence of ZDO signals, one at a time,
in order. -/
def runZdoSignals (sigs : List ZdoSignal) : List HandlerEffect :=
  sigs.flatMap zb_zdo_signal_handler

/-! ## Claims about the relay module -/

/-- C1: `relay_init` unconditionally sets the stored actuator state to
`false` (OFF) and drives the physical output to the OFF level
(`RELAY_ACTIVE_LEVEL ? 0 : 1`), regardless of any prior stored or
simulated hardware state; after a successful `relay_init`,
`relay_get_state()` returns `false`. -/
theorem relay_init_forces_off (gpio_ret : Int) (s : RelayState)
    (h : (relay_init gpio_ret s).1 = ESP_OK) :
    relay_get_state (relay_init gpio_ret s).2 = false ∧
    (relay_init gpio_ret s).2.gpio_level =
      (if RELAY_ACTIVE_LEVEL ≠ 0 then 0 else 1) := by
  by_cases hg : gpio_ret = ESP_OK
  · subst hg
    simp [relay_init, relay_get_state]
  · simp [relay_init, hg] at h

/-- Witness for C1: starting from a simulated prior hardware state with
the relay ON and the GPIO driven high, a successful `relay_init` reports
OFF and a low GPIO level. -/
theorem relay_init_forces_off_witness :
    (relay_init ESP_OK ⟨true, 1⟩).1 = ESP_OK ∧
    relay_get_state (relay_init ESP_OK ⟨true, 1⟩).2 = false ∧
    (relay_init ESP_OK ⟨true, 1⟩).2.gpio_level =
      (if RELAY_ACTIVE_LEVEL ≠ 0 then 0 else 1) :=
  ⟨by decide, relay_init_forces_off ESP_OK ⟨true, 1⟩ (by decide)⟩

/-- C6: for every sequence of `relay_set` and `relay_toggle` calls after
`relay_init`, `relay_get_state()` returns the value established by the
most recent call: the argument of the last `relay_set`, or the negation
of the previous state if the last call was `relay_toggle`. -/
theorem relay_get_state_most_recent_call (s : RelayState)
    (ops : List RelayOp) (b : Bool) :
    relay_get_state
        (runRelayOps (ops ++ [RelayOp.set b]) (relay_init ESP_OK s).2) = b ∧
    relay_get_state
        (runRelayOps (ops ++ [RelayOp.toggle]) (relay_init ESP_OK s).2) =
      !relay_get_state (runRelayOps ops (relay_init ESP_OK s).2) := by
  constructor <;> rw [runRelayOps_append] <;>
    simp [runRelayOps, RelayOp.apply, relay_set, relay_toggle, relay_get_state]

/-- C7: `relay_toggle` is equivalent to `relay_set(!relay_get_state())`,
and two consecutive `relay_toggle` calls restore the prior stored state,
for both starting states `true` and `false`. -/
theorem relay_toggle_involutive (s : RelayState) :
    relay_toggle s = relay_set (!relay_get_state s) s ∧
    relay_get_state (relay_toggle (relay_toggle s)) = relay_get_state s := by
  refine ⟨rfl, ?_⟩
  simp [relay_toggle, relay_set, relay_get_state]

/-! ## Claims about the attribute handler -/

/-- C2: for every inbound attribute-change message whose status field is
not success, `zb_attribute_handler` discards the event and returns an
error (`ESP_ERR_INVALID_ARG`), and the registered on/off callback is
never invoked. -/
theorem attr_handler_fails_closed (cb : Bool) (m : AttrMessage)
    (h : m.status ≠ ESP_ZB_ZCL_STATUS_SUCCESS) :
    (zb_attribute_handler cb (some m)).1 = ESP_ERR_INVALID_ARG ∧
    (zb_attribute_handler cb (some m)).1 ≠ ESP_OK ∧
    (zb_attribute_handler cb (some m)).2 = [] := by
  simp [zb_attribute_handler, h, ESP_ERR_INVALID_ARG, ESP_OK]

/-- Witness for C2: a failure-status on/off message addressed to the
configured endpoint is rejected with `ESP_ERR_INVALID_ARG` and the
callback is not called. -/
theorem attr_handler_fails_closed_witness :
    (⟨1, 10, 0x0006, 0x0000, 0x10, 1, some true⟩ : AttrMessage).status ≠
      ESP_ZB_ZCL_STATUS_SUCCESS ∧
    (zb_attribute_handler true
        (some ⟨1, 10, 0x0006, 0x0000, 0x10, 1, some true⟩)).1 =
      ESP_ERR_INVALID_ARG ∧
    (zb_attribute_handler true
        (some ⟨1, 10, 0x0006, 0x0000, 0x10, 1, some true⟩)).1 ≠ ESP_OK ∧
    (zb_attribute_handler true
        (some ⟨1, 10, 0x0006, 0x0000, 0x10, 1, some true⟩)).2 = [] :=
  ⟨by decide, attr_handler_fails_closed true _ (by decide)⟩

/-- C8: for every success-status attribute-change message whose endpoint,
cluster id, or attribute id does not match the single configured actuator
attribute (endpoint 10, On/Off cluster, on/off attribute),
`zb_attribute_handler` is a no-op: the registered callback is not invoked
and the handler returns `ESP_OK`. -/
theorem attr_handler_mismatch_noop (cb : Bool) (m : AttrMessage)
    (hs : m.status = ESP_ZB_ZCL_STATUS_SUCCESS)
    (hmm : m.dst_endpoint ≠ ZIGBEE_ENDPOINT ∨
      m.cluster ≠ ESP_ZB_ZCL_CLUSTER_ID_ON_OFF ∨
      m.attr_id ≠ ESP_ZB_ZCL_ATTR_ON_OFF_ON_OFF_ID) :
    zb_attribute_handler cb (some m) = (ESP_OK, []) := by
  rcases hmm with he | hc | ha
  · simp [zb_attribute_handler, hs, he]
  · by_cases he : m.dst_endpoint = ZIGBEE_ENDPOINT <;>
      simp [zb_attribute_handler, hs, he, hc]
  · by_cases he : m.dst_endpoint = ZIGBEE_ENDPOINT <;>
      by_cases hc : m.cluster = ESP_ZB_ZCL_CLUSTER_ID_ON_OFF <;>
      simp [zb_attribute_handler, hs, he, hc, ha]

/-- Witness for C8: a success-status boolean message for the right
cluster and attribute but a different endpoint (11) is accepted as a
no-op without invoking the callback. -/
theorem attr_handler_mismatch_noop_witness :
    (⟨0, 11, 0x0006, 0x0000, 0x10, 1, some true⟩ : AttrMessage).status =
      ESP_ZB_ZCL_STATUS_SUCCESS ∧
    (⟨0, 11, 0x0006, 0x0000, 0x10, 1, some true⟩ : AttrMessage).dst_endpoint ≠
      ZIGBEE_ENDPOINT ∧
    zb_attribute_handler true
        (some ⟨0, 11, 0x0006, 0x0000, 0x10, 1, some true⟩) = (ESP_OK, []) :=
  ⟨by decide, by decide,
    attr_handler_mismatch_noop true _ (by decide) (Or.inl (by decide))⟩

/-- A success-status message that matches the configured endpoint, On/Off
cluster and on/off attribute id, but whose ZCL data type is `U8` (0x20)
rather than boolean; used to refute C9 as stated. -/
def mismatchedTypeMsg : AttrMessage :=
  { status := 0x00
    dst_endpoint := 10
    cluster := 0x0006
    attr_id := 0x0000
    data_type := 0x20
    data_size := 1
    data_value := some true }

/-- Counterexample to C9 as stated: `mismatchedTypeMsg` has success
status and matches the configured endpoint, cluster, and attribute id,
and a callback is registered, yet `zb_attribute_handler` never invokes
the callback (the handler additionally requires the ZCL data type to be
boolean). -/
theorem attr_handler_match_counterexample :
    mismatchedTypeMsg.status = ESP_ZB_ZCL_STATUS_SUCCESS ∧
    mismatchedTypeMsg.dst_endpoint = ZIGBEE_ENDPOINT ∧
    mismatchedTypeMsg.cluster = ESP_ZB_ZCL_CLUSTER_ID_ON_OFF ∧
    mismatchedTypeMsg.attr_id = ESP_ZB_ZCL_ATTR_ON_OFF_ON_OFF_ID ∧
    (zb_attribute_handler true (some mismatchedTypeMsg)).2 = [] ∧
    (zb_attribute_handler true (some mismatchedTypeMsg)).2 ≠
      [mismatchedTypeMsg.data_value.getD false] := by
  decide

/-- C9 (amended): for every success-status attribute-change message
matching the configured endpoint, cluster, and attribute id, and whose
attribute data type is boolean, `zb_attribute_handler` coerces the value
to boolean — an absent/null value pointer maps to `false`, not an error —
and invokes the registered callback with that boolean. -/
theorem attr_handler_match_invokes_callback (m : AttrMessage)
    (hs : m.status = ESP_ZB_ZCL_STATUS_SUCCESS)
    (he : m.dst_endpoint = ZIGBEE_ENDPOINT)
    (hc : m.cluster = ESP_ZB_ZCL_CLUSTER_ID_ON_OFF)
    (ha : m.attr_id = ESP_ZB_ZCL_ATTR_ON_OFF_ON_OFF_ID)
    (ht : m.data_type = ESP_ZB_ZCL_ATTR_TYPE_BOOL) :
    zb_attribute_handler true (some m) =
      (ESP_OK, [m.data_value.getD false]) := by
  simp [zb_attribute_handler, hs, he, hc, ha, ht]

/-- Witness for C9 (amended): a matching boolean message with a NULL
value pointer makes the handler call the registered callback with
`false` and return `ESP_OK`. -/
theorem attr_handler_match_invokes_callback_witness :
    (⟨0, 10, 0x0006, 0x0000, 0x10, 0, none⟩ : AttrMessage).status =
      ESP_ZB_ZCL_STATUS_SUCCESS ∧
    zb_attribute_handler true
        (some ⟨0, 10, 0x0006, 0x0000, 0x10, 0, none⟩) = (ESP_OK, [false]) :=
  ⟨by decide,
    attr_handler_match_invokes_callback _ (by decide) (by decide) (by decide)
      (by decide) (by decide)⟩

/-- C10: for every success-status attribute-change message whose
endpoint, cluster, and attribute id all match the configured actuator
attribute but whose attribute data type is not boolean,
`zb_attribute_handler` never invokes the registered callback and still
returns `ESP_OK` (the event is silently ignored). -/
theorem attr_handler_wrong_type_noop (cb : Bool) (m : AttrMessage)
    (hs : m.status = ESP_ZB_ZCL_STATUS_SUCCESS)
    (he : m.dst_endpoint = ZIGBEE_ENDPOINT)
    (hc : m.cluster = ESP_ZB_ZCL_CLUSTER_ID_ON_OFF)
    (ha : m.attr_id = ESP_ZB_ZCL_ATTR_ON_OFF_ON_OFF_ID)
    (ht : m.data_type ≠ ESP_ZB_ZCL_ATTR_TYPE_BOOL) :
    zb_attribute_handler cb (some m) = (ESP_OK, []) := by
  simp [zb_attribute_handler, hs, he, hc, ha, ht]

/-- Witness for C10: a fully addressed on/off message carrying an 8-bit
enum payload (ZCL type 0x30) is silently ignored with `ESP_OK` and no
callback call. -/
theorem attr_handler_wrong_type_noop_witness :
    (⟨0, 10, 0x0006, 0x0000, 0x30, 1, some true⟩ : AttrMessage).data_type ≠
      ESP_ZB_ZCL_ATTR_TYPE_BOOL ∧
    zb_attribute_handler true
        (some ⟨0, 10, 0x0006, 0x0000, 0x30, 1, some true⟩) = (ESP_OK, []) :=
  ⟨by decide,
    attr_handler_wrong_type_noop true _ (by decide) (by decide) (by decide)
      (by decide) (by decide)⟩

/-! ## Claims about the ZDO signal handler -/

/-- C3: for every sequence of signals delivered to
`zb_zdo_signal_handler`, the joined-network handling branch is reached
only by a steering signal with success status or by a startup/reboot
signal with success status on a non-factory-new device; no other signal
sequence reaches it. -/
theorem joined_only_after_success_signal (sigs : List ZdoSignal)
    (h : HandlerEffect.joined_network ∈ runZdoSignals sigs) :
    ∃ sig ∈ sigs,
      (sig.sig_type = SigType.steering ∧ sig.err_status = ESP_OK) ∨
      ((sig.sig_type = SigType.device_first_start ∨
          sig.sig_type = SigType.device_reboot) ∧
        sig.err_status = ESP_OK ∧ sig.factory_new = false) := by
  simp only [runZdoSignals, List.mem_flatMap] at h
  obtain ⟨sig, hmem, hjoin⟩ := h
  refine ⟨sig, hmem, ?_⟩
  obtain ⟨t, e, f⟩ := sig
  cases t <;>
    simp only [zb_zdo_signal_handler] at hjoin <;>
    first
      | simp at hjoin
      | (split_ifs at hjoin <;> simp_all)

/-- Witness for C3: a run consisting of a stack-ready signal followed by
a successful steering signal reaches the joined branch, and the
characterization exhibits the successful steering signal. -/
theorem joined_only_after_success_signal_witness :
    HandlerEffect.joined_network ∈
      runZdoSignals [⟨SigType.skip_startup, 0, true⟩,
        ⟨SigType.steering, 0, true⟩] ∧
    ∃ sig ∈ ([⟨SigType.skip_startup, 0, true⟩,
        ⟨SigType.steering, 0, true⟩] : List ZdoSignal),
      (sig.sig_type = SigType.steering ∧ sig.err_status = ESP_OK) ∨
      ((sig.sig_type = SigType.device_first_start ∨
          sig.sig_type = SigType.device_reboot) ∧
        sig.err_status = ESP_OK ∧ sig.factory_new = false) :=
  ⟨by decide, joined_only_after_success_signal _ (by decide)⟩

/-- C4: every steering signal with failure status arms exactly one
scheduler alarm with a fixed 2000 ms delay re-issuing `begin_steering`,
and retries never cap: a run of n+1 consecutive steering failures
produces exactly one such retry per failure — in particular the
(n+1)-th failure still produces a retry. -/
theorem steering_failure_retries_unbounded (l : List ZdoSignal)
    (hall : ∀ s ∈ l, s.sig_type = SigType.steering ∧ s.err_status ≠ ESP_OK) :
    runZdoSignals l =
      List.replicate l.length (HandlerEffect.schedule_steering_retry 2000) := by
  induction l with
  | nil => rfl
  | cons s rest ih =>
    obtain ⟨ht, he⟩ := hall s (List.mem_cons_self s rest)
    have hrest := fun x hx => hall x (List.mem_cons_of_mem s hx)
    simp only [runZdoSignals] at ih ⊢
    simp only [List.flatMap_cons, List.length_cons, List.replicate_succ]
    rw [ih hrest]
    simp [zb_zdo_signal_handler, ht, he]

/-- Witness for C4: six consecutive induced steering failures yield six
scheduled 2000 ms steering retries — the sixth failure still produces a
retry. -/
theorem steering_failure_retries_unbounded_witness :
    (∀ s ∈ List.replicate 6 (⟨SigType.steering, ESP_FAIL, true⟩ : ZdoSignal),
      s.sig_type = SigType.steering ∧ s.err_status ≠ ESP_OK) ∧
    runZdoSignals
        (List.replicate 6 (⟨SigType.steering, ESP_FAIL, true⟩ : ZdoSignal)) =
      List.replicate
        (List.replicate 6 (⟨SigType.steering, ESP_FAIL, true⟩ : ZdoSignal)).length
        (HandlerEffect.schedule_steering_retry 2000) :=
  ⟨by decide, steering_failure_retries_unbounded _ (by decide)⟩

/-- C5: every startup/reboot signal with failure status produces exactly
one scheduler alarm re-issuing `begin_steering` after a fixed 1000 ms
delay, and nothing else: no immediate `begin_steering` (nothing happens
before the delay elapses) and no second retry for the same failure
signal. -/
theorem startup_failure_single_retry (sig : ZdoSignal)
    (ht : sig.sig_type = SigType.device_first_start ∨
      sig.sig_type = SigType.device_reboot)
    (he : sig.err_status ≠ ESP_OK) :
    zb_zdo_signal_handler sig =
      [HandlerEffect.schedule_steering_retry 1000] := by
  rcases ht with ht | ht <;> simp [zb_zdo_signal_handler, ht, he]

/-- Witness for C5: a failed device-reboot signal schedules exactly one
1000 ms steering retry. -/
theorem startup_failure_single_retry_witness :
    (⟨SigType.device_reboot, ESP_FAIL, false⟩ : ZdoSignal).err_status ≠
      ESP_OK ∧
    zb_zdo_signal_handler ⟨SigType.device_reboot, ESP_FAIL, false⟩ =
      [HandlerEffect.schedule_steering_retry 1000] :=
  ⟨by decide,
    startup_failure_single_retry _ (Or.inr (by decide)) (by decide)⟩

end Heizung
